import Mathlib

/-!
Verification of the data-shaping layer of the tesla_dashboard repository.

The Python sources (`data_processor.py`, `visualizations.py`) are shallowly
embedded below.  Numeric values that the Python code holds in IEEE-754
doubles are modelled as exact rational numbers: decimal literals of the
source become the exact rationals they denote, and the outputs of the
fixed-seed pseudo-random generator become the exact rational values of the
float64 numbers that generator produces (the generator is NumPy's legacy
MT19937 stream for `np.random.seed(42)` followed by
`np.random.normal(1.1, 0.05, n)`; its values are a fixed prefix-stable
sequence, reproduced bit-exactly and listed as constants).  Rational
arithmetic is carried out on an unnormalised fraction type `Frac` so that
every concrete computation reduces inside the kernel.  Fallible Python code
(statements that can raise) is modelled with `Option`/`Except`.
-/

/-- Unnormalised rational number: numerator over (positive) denominator.
All denominators constructed below are positive products of positive
constants. -/
structure Frac where
  num : Int
  den : Int
deriving DecidableEq

def Frac.ofInt (n : Int) : Frac := ⟨n, 1⟩

def Frac.mul (a b : Frac) : Frac := ⟨a.num * b.num, a.den * b.den⟩

def Frac.add (a b : Frac) : Frac := ⟨a.num * b.den + b.num * a.den, a.den * b.den⟩

def Frac.sub (a b : Frac) : Frac := ⟨a.num * b.den - b.num * a.den, a.den * b.den⟩

/-- Truncation toward zero, the semantics of NumPy `astype(int)` on float
values; `Int.tdiv` is Lean's toward-zero division and all denominators used
here are positive. -/
def Frac.trunc (a : Frac) : Int := a.num.tdiv a.den

/-!
## Delivery series (`get_tesla_delivery_data`, data_processor.py lines 166-233)

    current_date = datetime.now()
    periods = (current_date.year - 2019) * 4 + (current_date.month // 3)
    quarters = pd.date_range('2019-03-31', periods=periods, freq='Q')

The current-date context enters only through `(year, month)`; the quarter
index is `2019-03-31, 2019-06-30, ...`, so position 19 is `2023-12-31`
(Q4 2023) and the index contains `2023-12-31` exactly when `periods >= 20`.

    np.random.seed(42)
    growth_factors = np.random.normal(growth_multiplier, 0.05, len(quarters))

`growthFactors` below lists the exact rational values of the first 26
float64 numbers of that fixed-seed stream (the stream is prefix-stable in
`len(quarters)`); only indices `1 .. periods-1` are read, and every context
in which the function returns at all has `periods <= 26` (see
`buildDelivery`), so 26 values cover all reachable reads.
-/

def growthFactors : List Frac :=
  [⟨2532904836914049, 2251799813685248⟩,
   ⟨4922825237345887, 4503599627370496⟩,
   ⟨5099806083049667, 4503599627370496⟩,
   ⟨1324228856199303, 1125899906842624⟩,
   ⟨306327058596873, 281474976710656⟩,
   ⟨2450618317252023, 2251799813685248⟩,
   ⟨1327391675620109, 1125899906842624⟩,
   ⟨5126770528119757, 4503599627370496⟩,
   ⟨2424121678314857, 2251799813685248⟩,
   ⟨1269033312653385, 1125899906842624⟩,
   ⟨4849607202674191, 4503599627370496⟩,
   ⟨1212271643218957, 1125899906842624⟩,
   ⟨313027790619417, 281474976710656⟩,
   ⟨282695448766421, 281474976710656⟩,
   ⟨4565542624720025, 4503599627370496⟩,
   ⟨2413671847374655, 2251799813685248⟩,
   ⟨2362945148650589, 2251799813685248⟩,
   ⟨2512360899303229, 2251799813685248⟩,
   ⟨1187372686424877, 1125899906842624⟩,
   ⟨2317968534477083, 2251799813685248⟩,
   ⟨5283994352586103, 4503599627370496⟩,
   ⟨4903119286970533, 4503599627370496⟩,
   ⟨4969165589981023, 4503599627370496⟩,
   ⟨579141852510145, 562949953421312⟩,
   ⟨4831375498341619, 4503599627370496⟩,
   ⟨2489468568395881, 2251799813685248⟩]

/-- Growth factor at draw index `i`; the default is never read for any
context in which the source returns a table (indices stay below 26). -/
def gfGet (i : Nat) : Frac := growthFactors.getD i (Frac.ofInt 1)

/-- `total_deliveries[0] = 63000`, `total_deliveries[i] = total_deliveries[i-1] * growth_factors[i]`. -/
def totalQ : Nat → Frac
  | 0 => Frac.ofInt 63000
  | i + 1 => (totalQ i).mul (gfGet (i + 1))

/-- `np.linspace(a, b, n)` entry `i`: `a + (b - a) * i / (n - 1)`, exact
rational form; for `n <= 1` NumPy yields the single value `a`. -/
def linMix (a b : Frac) (n i : Nat) : Frac :=
  if n ≤ 1 then a else a.add ((b.sub a).mul ⟨(i : Int), (n : Int) - 1⟩)

/-- `model_3y_pct = np.linspace(0.75, 0.95, len(quarters))`. -/
def mix3y (n i : Nat) : Frac := linMix ⟨75, 100⟩ ⟨95, 100⟩ n i

/-- `model_3_pct = np.linspace(0.8, 0.45, len(quarters))`. -/
def mix3 (n i : Nat) : Frac := linMix ⟨80, 100⟩ ⟨45, 100⟩ n i

/-- `model_s_pct = np.linspace(0.6, 0.5, len(quarters))`. -/
def mixS (n i : Nat) : Frac := linMix ⟨60, 100⟩ ⟨50, 100⟩ n i

/-- `data['Model 3/Y'] = data['Total Deliveries'] * model_3y_pct`. -/
def m3yQ (n i : Nat) : Frac := (totalQ i).mul (mix3y n i)

/-- `data['Model S/X'] = data['Total Deliveries'] - data['Model 3/Y']`. -/
def msxQ (n i : Nat) : Frac := (totalQ i).sub (m3yQ n i)

/-- `data['Model 3'] = data['Model 3/Y'] * model_3_pct`. -/
def m3Q (n i : Nat) : Frac := (m3yQ n i).mul (mix3 n i)

/-- `data['Model Y'] = data['Model 3/Y'] - data['Model 3']`. -/
def myQ (n i : Nat) : Frac := (m3yQ n i).sub (m3Q n i)

/-- `data['Model S'] = data['Model S/X'] * model_s_pct`. -/
def msQ (n i : Nat) : Frac := (msxQ n i).mul (mixS n i)

/-- `data['Model X'] = data['Model S/X'] - data['Model S']`. -/
def mxQ (n i : Nat) : Frac := (msxQ n i).sub (msQ n i)

/-- One column after the final `astype(int)` loop. -/
def intCol (f : Nat → Frac) (n : Nat) : List Int :=
  (List.range n).map fun i => (f i).trunc

/-- `cybertruck_values = [2000, 10000, 20000, 30000, 40000, 50000, 60000]`. -/
def cyberRamp : List Int := [2000, 10000, 20000, 30000, 40000, 50000, 60000]

/-- Position of `2023-12-31` in the quarter index starting `2019-03-31`. -/
def cybertruckStartIdx : Nat := 19

/-- `data.iloc[start:, col] = vals`: replace the rows from `start` on by
`vals`; pandas accepts this only when `vals` has exactly the length of the
replaced slice, which callers must check. -/
def setSlice (l : List α) (start : Nat) (vals : List α) : List α :=
  l.take start ++ vals ++ l.drop (start + vals.length)

/-- Quarterly delivery table with one integer entry per quarter and column,
in the order of the quarter index (position 0 = Q1 2019). -/
structure DeliveryTable where
  totalDeliveries : List Int
  model3y : List Int
  modelSX : List Int
  model3 : List Int
  modelY : List Int
  modelS : List Int
  modelX : List Int
  cybertruck : List Int
deriving DecidableEq

/-- All float-valued columns of the table, truncated to int, plus the given
Cybertruck column (which is integer-valued from the start in the source and
unchanged by `astype(int)`). -/
def mkDeliveryTable (n : Nat) (cyber : List Int) : DeliveryTable :=
  { totalDeliveries := intCol totalQ n
    model3y := intCol (m3yQ n) n
    modelSX := intCol (msxQ n) n
    model3 := intCol (m3Q n) n
    modelY := intCol (myQ n) n
    modelS := intCol (msQ n) n
    modelX := intCol (mxQ n) n
    cybertruck := cyber }

/-- Body of `get_tesla_delivery_data` for `n = periods` quarters.  `none`
models a raised exception: for `n = 0` assigning the length-1 list
`[63000]` to the empty frame raises, and when `'2023-12-31'` is in the
index (`n >= 20`) the slice assignment
`data.iloc[19:, ...] = cybertruck_values[:n-19]` raises whenever the
sliced list is shorter than the `n - 19` rows it must fill, i.e. for
`n >= 27`. -/
def buildDelivery (n : Nat) : Option DeliveryTable :=
  if n = 0 then none
  else if 20 ≤ n then
    let needed := n - cybertruckStartIdx
    let vals := cyberRamp.take needed
    if vals.length = needed then
      some (mkDeliveryTable n (setSlice (List.replicate n 0) cybertruckStartIdx vals))
    else none
  else some (mkDeliveryTable n (List.replicate n 0))

/-- `(current_date.year - 2019) * 4 + (current_date.month // 3)`; Python
`//` is floor division. -/
def deliveryPeriods (year month : Int) : Int := (year - 2019) * 4 + month.fdiv 3

/-- `get_tesla_delivery_data`, parameterised by the current-date context.
A negative `periods` makes `pd.date_range` raise, hence `none`. -/
def get_tesla_delivery_data (year month : Int) : Option DeliveryTable :=
  let p := deliveryPeriods year month
  if p < 0 then none else buildDelivery p.toNat

/-- Evaluate a Boolean table property across the optional result; an
errored call has no table to inspect. -/
def tableOK (check : DeliveryTable → Bool) : Option DeliveryTable → Bool
  | none => true
  | some t => check t

/-- The exact additivity stated by the spec: in every period the integer
columns satisfy `Model 3/Y + Model S/X = Total Deliveries` and
`Model 3 + Model Y = Model 3/Y`. -/
def sumsExact (t : DeliveryTable) : Bool :=
  (List.range t.totalDeliveries.length).all fun i =>
    (t.model3y.getD i 0 + t.modelSX.getD i 0 == t.totalDeliveries.getD i 0) &&
    (t.model3.getD i 0 + t.modelY.getD i 0 == t.model3y.getD i 0)

/-- Additivity up to the unit lost by integer truncation: each pair of
sub-columns sums to its parent column or to the parent minus one. -/
def sumsWithin1 (t : DeliveryTable) : Bool :=
  (List.range t.totalDeliveries.length).all fun i =>
    let tot := t.totalDeliveries.getD i 0
    let a := t.model3y.getD i 0 + t.modelSX.getD i 0
    let p := t.model3y.getD i 0
    let b := t.model3.getD i 0 + t.modelY.getD i 0
    (a == tot || a == tot - 1) && (b == p || b == p - 1)

/-- The Cybertruck column is 0 strictly before position 19 (Q4 2023) and
from position 19 on carries the hand-specified ramp values in order. -/
def cyberOK (t : DeliveryTable) : Bool :=
  (List.range t.cybertruck.length).all fun i =>
    t.cybertruck.getD i 0 ==
      (if i < cybertruckStartIdx then 0 else cyberRamp.getD (i - cybertruckStartIdx) 0)

/-!
## Price history (`get_stock_data`, data_processor.py lines 7-35)

The provider call `yf.download` either returns a frame or raises; both are
modelled by the `provider` argument.  Timestamps are modelled as integer
day numbers, so `pd.date_range(start, end)` (daily frequency, endpoints
inclusive) is the integer interval `[start, end]`.  A missing value (NaN)
is `none`.
-/

/-- Column names of the dummy price frame. -/
def priceColumns : List String := ["Open", "High", "Low", "Close", "Adj Close", "Volume"]

/-- Daily `pd.date_range(start, end)`: empty when `start > end`. -/
def dateRange (s e : Int) : List Int :=
  (List.range (e - s + 1).toNat).map fun (i : Nat) => s + (i : Int)

/-- Price-history frame: row `i` belongs to day `dates[i]` and lists one
optional value per entry of `cols`. -/
structure PriceTable where
  dates : List Int
  cols : List String
  rows : List (List (Option ℚ))
deriving DecidableEq

/-- `DataFrame.empty`: some axis has length zero. -/
def PriceTable.isEmpty (t : PriceTable) : Bool := t.dates.isEmpty || t.cols.isEmpty

/-- `pd.DataFrame(index=pd.date_range(start, end), columns=[...])`: the
all-NaN frame the source returns on provider failure or empty result. -/
def dummyFrame (s e : Int) : PriceTable :=
  { dates := dateRange s e
    cols := priceColumns
    rows := (dateRange s e).map fun _ => priceColumns.map fun _ => (none : Option ℚ) }

/-- `get_stock_data`: the `try` block returns the provider frame when it is
non-empty and the dummy frame when it is empty; the `except` branch prints
and returns the dummy frame.  An `Except.error` result would model an
exception propagating to the caller; no branch constructs one. -/
def get_stock_data (provider : Except String PriceTable) (start_date end_date : Int) :
    Except String PriceTable :=
  match provider with
  | Except.ok data =>
      if data.isEmpty then Except.ok (dummyFrame start_date end_date)
      else Except.ok data
  | Except.error _ => Except.ok (dummyFrame start_date end_date)

/-- Condition of claim C4: the provider raised or delivered an empty frame. -/
def providerFailedOrEmpty : Except String PriceTable → Prop
  | Except.ok t => t.isEmpty = true
  | Except.error _ => True

/-!
## Financial statements (`get_financial_statements` and
`create_default_financial_df`, data_processor.py lines 57-118)

The three frames fetched from the provider for the requested cadence are
the function's observable input and appear as parameters.  Period
boundaries of the placeholder are `pd.date_range(end=now, periods=k)`
quarter or year ends; the calendar arithmetic is abstracted to successive
integer markers ending at `now` (no claim inspects the boundary values,
only their number).
-/

/-- Statement frame: one row of per-period values for each line item;
`values` is aligned with `lineItems` and each row with `dates`. -/
structure StmtTable where
  lineItems : List String
  dates : List Int
  values : List (List ℚ)
deriving DecidableEq

/-- `DataFrame.empty`: some axis has length zero. -/
def StmtTable.isEmpty (t : StmtTable) : Bool := t.dates.isEmpty || t.lineItems.isEmpty

def incomeItems : List String :=
  ["Total Revenue", "Cost Of Revenue", "Gross Profit", "Operating Expense",
   "Operating Income", "Net Income"]

def balanceItems : List String :=
  ["Total Assets", "Total Liabilities", "Total Stockholder Equity",
   "Cash And Cash Equivalents", "Short Term Investments", "Inventory"]

def cashItems : List String :=
  ["Operating Cash Flow", "Capital Expenditure", "Free Cash Flow",
   "Dividend Payout", "Cash From Financing", "Cash From Investment"]

/-- `pd.date_range(end=datetime.now(), periods=n, freq=...)`: `n`
period-end markers ending at `now`. -/
def defaultDates (now : Int) (n : Nat) : List Int :=
  (List.range n).map fun (i : Nat) => now - ((n : Int) - 1 - (i : Int))

/-- `create_default_financial_df`: zero-filled frame, 8 quarterly or 5
annual periods, line items as rows and period ends as columns. -/
def create_default_financial_df (period statement_type : String) (now : Int) : StmtTable :=
  let dates := if period = "quarterly" then defaultDates now 8 else defaultDates now 5
  let columns :=
    if statement_type = "income" then incomeItems
    else if statement_type = "balance" then balanceItems
    else cashItems
  { lineItems := columns, dates := dates, values := columns.map fun _ => dates.map fun _ => (0 : ℚ) }

/-- Result dictionary of `get_financial_statements`. -/
structure FinStatements where
  income_statement : StmtTable
  balance_sheet : StmtTable
  cash_flow : StmtTable
deriving DecidableEq

/-- `get_financial_statements`: each statement fetched for the requested
cadence is replaced by its placeholder exactly when it is empty. -/
def get_financial_statements (income_stmt balance_sheet cash_flow : StmtTable)
    (period : String) (now : Int) : FinStatements :=
  { income_statement :=
      if income_stmt.isEmpty then create_default_financial_df period "income" now else income_stmt
    balance_sheet :=
      if balance_sheet.isEmpty then create_default_financial_df period "balance" now else balance_sheet
    cash_flow :=
      if cash_flow.isEmpty then create_default_financial_df period "cash" now else cash_flow }

/-- The three statements of the result, in dictionary order. -/
def statementsList (f : FinStatements) : List StmtTable :=
  [f.income_statement, f.balance_sheet, f.cash_flow]

/-- Every line item of every period holds 0. -/
def StmtTable.allZero (t : StmtTable) : Prop :=
  ∀ row ∈ t.values, ∀ v ∈ row, v = 0

/-!
## Financial ratios (`calculate_financial_ratios`, data_processor.py
lines 120-164)

`df.loc[key]` raises `KeyError` when `key` is not in the index; the
enclosing `try` then sets the whole ratio column to NaN.  When both rows
exist the column is the pointwise quotient times 100; pandas float
division yields NaN for `0/0` and signed infinity for `x/0`, `x != 0`.
`fillna(0)` replaces NaN (and only NaN) by 0.
-/

/-- Pandas float value: a number, NaN, or a signed infinity. -/
inductive PVal
  | num (q : ℚ)
  | nan
  | inf
  | ninf
deriving DecidableEq

/-- `df.loc[key]`: the value row of the line item labelled `key`, `none`
modelling the raised `KeyError`. -/
def locRow (t : StmtTable) (key : String) : Option (List ℚ) :=
  ((t.lineItems.zip t.values).find? fun p => p.1 == key).map fun p => p.2

/-- One entry of a ratio column: `(a / b) * 100` with pandas division
semantics. -/
def ratioEntry (a b : ℚ) : PVal :=
  if b = 0 then (if a = 0 then PVal.nan else if 0 < a then PVal.inf else PVal.ninf)
  else PVal.num (a / b * 100)

/-- One ratio column over `n` periods: the pointwise quotient of the two
looked-up rows, or an all-NaN column when either label is absent
(`KeyError` caught). -/
def ratioColumn (tNum : StmtTable) (numKey : String) (tDen : StmtTable) (denKey : String)
    (n : Nat) : List PVal :=
  match locRow tNum numKey, locRow tDen denKey with
  | some xs, some ys => (List.range n).map fun i => ratioEntry (xs.getD i 0) (ys.getD i 0)
  | _, _ => List.replicate n PVal.nan

/-- `fillna(0)`: NaN becomes 0, every other value (infinities included) is
kept. -/
def fillna0 : PVal → PVal
  | PVal.nan => PVal.num 0
  | v => v

/-- `calculate_financial_ratios`: rows of the transposed ratio frame, in
construction order, indexed by the income-statement periods. -/
def calculate_financial_ratios (financials : FinStatements) : List (String × List PVal) :=
  let inc := financials.income_statement
  let bal := financials.balance_sheet
  let n := inc.dates.length
  [("Gross Margin", (ratioColumn inc "Gross Profit" inc "Total Revenue" n).map fillna0),
   ("Operating Margin", (ratioColumn inc "Operating Income" inc "Total Revenue" n).map fillna0),
   ("Net Profit Margin", (ratioColumn inc "Net Income" inc "Total Revenue" n).map fillna0),
   ("ROE", (ratioColumn inc "Net Income" bal "Total Stockholder Equity" n).map fillna0)]

/-!
## EV market share (`get_ev_market_share_data`, data_processor.py
lines 375-453)
-/

/-- The hardcoded year-to-shares table, in source order. -/
def market_share : List (Nat × List (String × Nat)) :=
  [(2018, [("Tesla", 12), ("BAIC", 8), ("BYD", 7), ("BMW", 6), ("Nissan", 6),
           ("Volkswagen", 5), ("Hyundai-Kia", 4), ("Others", 52)]),
   (2019, [("Tesla", 16), ("BAIC", 7), ("BYD", 7), ("Volkswagen", 7), ("BMW", 5),
           ("Nissan", 5), ("Hyundai-Kia", 5), ("Others", 48)]),
   (2020, [("Tesla", 18), ("Volkswagen", 8), ("SAIC", 7), ("BYD", 6), ("BMW", 5),
           ("Hyundai-Kia", 5), ("Nissan", 4), ("Others", 47)]),
   (2021, [("Tesla", 21), ("Volkswagen", 11), ("SAIC", 8), ("BYD", 7),
           ("Hyundai-Kia", 6), ("BMW", 5), ("Stellantis", 5), ("Others", 37)]),
   (2022, [("Tesla", 23), ("BYD", 11), ("Volkswagen", 10), ("SAIC", 7),
           ("Hyundai-Kia", 7), ("Stellantis", 6), ("BMW", 5), ("Others", 31)]),
   (2023, [("Tesla", 19), ("BYD", 17), ("Volkswagen", 9), ("SAIC", 8),
           ("Hyundai-Kia", 7), ("Stellantis", 6), ("BMW", 5), ("Others", 29)])]

/-- `max(market_share.keys())`. -/
def marketShareMaxYear : Nat := (market_share.map Prod.fst).foldl max 0

/-- `get_ev_market_share_data`: the mapping for the requested year, or the
mapping of the largest known year when the requested year is absent. -/
def get_ev_market_share_data (year : Nat) : List (String × Nat) :=
  match market_share.find? fun p => p.1 == year with
  | some p => p.2
  | none => (((market_share.find? fun p => p.1 == marketShareMaxYear).map fun p => p.2).getD [])

/-!
## Chart builder (`plot_financial_metrics`, visualizations.py
lines 112-227)

The function ignores its `financial_data` argument and charts a hardcoded
table: 8 quarterly or 5 annual periods.  The date labels form the shared
category axis; the label column is modelled separately from the numeric
columns (requesting the label column by name therefore also falls into the
placeholder branch, which preserves the length property under scrutiny).
-/

/-- `[f'Q{i} {2023+(i//4)}' for i in range(1, 9)]`. -/
def quarterlyDateLabels : List String :=
  ["Q1 2023", "Q2 2023", "Q3 2023", "Q4 2024", "Q5 2024", "Q6 2024", "Q7 2024", "Q8 2025"]

/-- `[f'FY {2019+i}' for i in range(5)]`. -/
def annualDateLabels : List String :=
  ["FY 2019", "FY 2020", "FY 2021", "FY 2022", "FY 2023"]

/-- The hardcoded quarterly metric columns. -/
def quarterlyData : List (String × List Int) :=
  [("Total Revenue", [18000, 19500, 21000, 23000, 24500, 26000, 29000, 31000]),
   ("Gross Profit", [4500, 4900, 5100, 5400, 5900, 6300, 7000, 7800]),
   ("Operating Income", [2200, 2400, 2600, 2800, 3000, 3200, 3500, 3800]),
   ("Net Income", [1800, 2000, 2200, 2400, 2600, 2800, 3100, 3300]),
   ("Total Assets", [55000, 57000, 59000, 62000, 65000, 68000, 72000, 75000]),
   ("Total Liabilities", [30000, 31000, 32000, 33000, 34000, 35000, 36000, 37000]),
   ("Total Stockholder Equity", [25000, 26000, 27000, 29000, 31000, 33000, 36000, 38000]),
   ("Cash And Cash Equivalents", [8000, 8500, 9000, 9500, 10000, 10500, 11000, 11500]),
   ("Operating Cash Flow", [3000, 3200, 3400, 3600, 3800, 4000, 4200, 4400]),
   ("Capital Expenditure", [-1500, -1600, -1700, -1800, -1900, -2000, -2100, -2200]),
   ("Free Cash Flow", [1500, 1600, 1700, 1800, 1900, 2000, 2100, 2200]),
   ("Dividend Payout", [0, 0, 0, 0, 0, 0, 0, 0])]

/-- The hardcoded annual metric columns. -/
def annualData : List (String × List Int) :=
  [("Total Revenue", [18000, 21000, 24500, 29000, 31000]),
   ("Gross Profit", [4500, 5100, 5900, 7000, 7800]),
   ("Operating Income", [2200, 2600, 3000, 3500, 3800]),
   ("Net Income", [1800, 2200, 2600, 3100, 3300]),
   ("Total Assets", [55000, 59000, 65000, 72000, 75000]),
   ("Total Liabilities", [30000, 32000, 34000, 36000, 37000]),
   ("Total Stockholder Equity", [25000, 27000, 31000, 36000, 38000]),
   ("Cash And Cash Equivalents", [8000, 9000, 10000, 11000, 11500]),
   ("Operating Cash Flow", [3000, 3400, 3800, 4200, 4400]),
   ("Capital Expenditure", [-1500, -1700, -1900, -2100, -2200]),
   ("Free Cash Flow", [1500, 1700, 1900, 2100, 2200]),
   ("Dividend Payout", [0, 0, 0, 0, 0])]

/-- ASCII lower-casing, the effect of `period.lower()` on the strings in
play. -/
def lowerStr (s : String) : String := String.mk (s.data.map Char.toLower)

/-- Numeric columns of the hardcoded chart table for the cadence. -/
def financialChartData (period : String) : List (String × List Int) :=
  if lowerStr period = "quarterly" then quarterlyData else annualData

/-- Category (date) axis of the chart for the cadence. -/
def chartDateLabels (period : String) : List String :=
  if lowerStr period = "quarterly" then quarterlyDateLabels else annualDateLabels

/-- The `data_subset` loop of `plot_financial_metrics`: each requested
metric keeps its known column, and an unknown metric is replaced by the
placeholder `[1000 * (i+1) for i in range(len(data['Date']))]`. -/
def data_subset (metrics : List String) (period : String) : List (String × List Int) :=
  metrics.map fun mname =>
    match (financialChartData period).find? fun p => p.1 == mname with
    | some p => (mname, p.2)
    | none =>
        (mname, (List.range (chartDateLabels period).length).map fun (i : Nat) => 1000 * ((i : Int) + 1))

/-!
## Delivery filter (`filter_delivery_data`, data_processor.py lines 235-251)

Row slicing only; `df.iloc[-1:]` keeps the final row (nothing when the
frame is empty), `df.iloc[-4:]` the final four rows (all rows when there
are fewer), anything else keeps every row.  Each branch returns `.copy()`,
a fresh frame; the embedding is a pure function of the row list.
-/

def filter_delivery_data (delivery_data : List α) (time_period : String) : List α :=
  if time_period = "Last Quarter" then delivery_data.drop (delivery_data.length - 1)
  else if time_period = "Last Year" then delivery_data.drop (delivery_data.length - 4)
  else delivery_data

/-!
## Theorems
-/

/-- For `periods >= 27` (current dates from September 2025 on) the ramp
slice assignment raises, so no table is returned. -/
theorem buildDelivery_eq_none_of_27 (n : Nat) (h : 27 ≤ n) : buildDelivery n = none := by
  have h0 : ¬n = 0 := by omega
  have h20 : 20 ≤ n := by
    omega
  have hlen : ¬(cyberRamp.take (n - cybertruckStartIdx)).length = n - cybertruckStartIdx := by
    rw [List.length_take]
    have hr : cyberRamp.length = 7 := rfl
    rw [hr]
    have hs : cybertruckStartIdx = 19 := rfl
    omega
  simp only [buildDelivery]
  rw [if_neg h0, if_pos h20, if_neg hlen]

/-- A Boolean table property verified for every period count up to 26 holds
for every period count, because larger counts raise. -/
theorem tableOK_buildDelivery (P : DeliveryTable → Bool)
    (hall : ((List.range 27).all fun k => tableOK P (buildDelivery k)) = true) (n : Nat) :
    tableOK P (buildDelivery n) = true := by
  by_cases h : n < 27
  · have h2 := List.all_eq_true.mp hall n (List.mem_range.mpr h)
    simpa using h2
  · rw [buildDelivery_eq_none_of_27 n (by omega)]
    rfl

/-- C1, counterexample: in the current-date context June 2019 (two
quarters) `get_tesla_delivery_data` returns a table violating the claimed
exact additivity; at period 1 the integer columns hold Model 3 = 29439,
Model Y = 35981, yet Model 3/Y = 65421, and 29439 + 35981 = 65420.  The
per-column `astype(int)` truncation loses the identity that held for the
underlying real values. -/
theorem c1_exact_sums_counterexample :
    tableOK sumsExact (get_tesla_delivery_data 2019 6) = false ∧
    (get_tesla_delivery_data 2019 6).map
        (fun t => (t.model3.getD 1 0, t.modelY.getD 1 0, t.model3y.getD 1 0)) =
      some (29439, 35981, 65421) := by
  decide

/-- C1, amended: in every current-date context in which
`get_tesla_delivery_data` returns a table, every period satisfies
`Model 3/Y + Model S/X ∈ {Total Deliveries, Total Deliveries - 1}` and
`Model 3 + Model Y ∈ {Model 3/Y, Model 3/Y - 1}`: the claimed identities
hold up to the single unit lost by the final integer truncation. -/
theorem c1_sums_within_one (year month : Int) :
    tableOK sumsWithin1 (get_tesla_delivery_data year month) = true := by
  simp only [get_tesla_delivery_data]
  split
  · rfl
  · exact tableOK_buildDelivery sumsWithin1 (by decide) _

/-- C6: `get_tesla_delivery_data` is a pure function of the current-date
context, and its result depends on that context only through the computed
quarter count, the fixed-seed growth factors being the same constants on
every call; two calls in the same context therefore return identical
results (including the contexts, from September 2025 on, in which both
calls raise instead of returning a series). -/
theorem c6_determinism (y1 m1 y2 m2 : Int)
    (h : deliveryPeriods y1 m1 = deliveryPeriods y2 m2) :
    get_tesla_delivery_data y1 m1 = get_tesla_delivery_data y2 m2 := by
  simp only [get_tesla_delivery_data]
  rw [h]

/-- Witness for C6: May 2023 and April 2023 lie in the same quarter. -/
theorem c6_determinism_witness :
    deliveryPeriods 2023 5 = deliveryPeriods 2023 4 ∧
    get_tesla_delivery_data 2023 5 = get_tesla_delivery_data 2023 4 :=
  ⟨by decide, c6_determinism 2023 5 2023 4 (by decide)⟩

/-- C9: in every current-date context in which `get_tesla_delivery_data`
returns a table, the Cybertruck column is 0 at every position before
index 19 (the Q4 2023 quarter) and from index 19 on carries the
hand-specified ramp 2000, 10000, 20000, ... in order. -/
theorem c9_cybertruck_ramp (year month : Int) :
    tableOK cyberOK (get_tesla_delivery_data year month) = true := by
  simp only [get_tesla_delivery_data]
  split
  · rfl
  · exact tableOK_buildDelivery cyberOK (by decide) _

/-- C2, counterexample: a call with `startDate > endDate` (5 > 3) and a
failing provider is not rejected: `get_stock_data` returns a frame (the
dummy frame over the empty date range) instead of signalling an
InvalidArgument failure. -/
theorem c2_no_invalid_argument_counterexample :
    get_stock_data (Except.error "provider down") 5 3 = Except.ok (dummyFrame 5 3) ∧
    (dummyFrame 5 3).dates = [] := by
  constructor
  · rfl
  · rfl

/-- C2, amended: `get_stock_data` validates nothing and rejects nothing:
for every provider outcome and every pair of dates, `startDate > endDate`
included, the call returns a frame and never signals a failure to the
caller. -/
theorem c2_always_ok (provider : Except String PriceTable) (start_date end_date : Int) :
    ∃ t, get_stock_data provider start_date end_date = Except.ok t := by
  cases provider with
  | ok d =>
      by_cases h : d.isEmpty = true
      · exact ⟨dummyFrame start_date end_date, by simp [get_stock_data, h]⟩
      · exact ⟨d, by simp [get_stock_data, h]⟩
  | error msg => exact ⟨dummyFrame start_date end_date, rfl⟩

/-- C4: for `startDate ≤ endDate`, when the provider raises or returns an
empty frame, `get_stock_data` returns (never raises) the dummy frame whose
row count is the number of calendar days in the inclusive range and whose
every field is the NaN sentinel. -/
theorem c4_provider_down_placeholder (provider : Except String PriceTable)
    (start_date end_date : Int) (_hse : start_date ≤ end_date)
    (hp : providerFailedOrEmpty provider) :
    get_stock_data provider start_date end_date = Except.ok (dummyFrame start_date end_date) ∧
    (dummyFrame start_date end_date).dates.length = (end_date - start_date + 1).toNat ∧
    (dummyFrame start_date end_date).rows.length = (end_date - start_date + 1).toNat ∧
    ∀ row ∈ (dummyFrame start_date end_date).rows,
      row = priceColumns.map fun _ => (none : Option ℚ) := by
  refine ⟨?_, ?_, ?_, ?_⟩
  · cases provider with
    | ok d =>
        simp only [providerFailedOrEmpty] at hp
        simp [get_stock_data, hp]
    | error msg => rfl
  · show (dateRange start_date end_date).length = (end_date - start_date + 1).toNat
    unfold dateRange
    rw [List.length_map, List.length_range]
  · show ((dateRange start_date end_date).map _).length = (end_date - start_date + 1).toNat
    rw [List.length_map]
    unfold dateRange
    rw [List.length_map, List.length_range]
  · intro row hrow
    simp only [dummyFrame, List.mem_map] at hrow
    obtain ⟨d, hd, hrw⟩ := hrow
    exact hrw.symm

/-- Witness for C4: three calendar days, provider raising. -/
theorem c4_witness :
    (0 : Int) ≤ 2 ∧
    (get_stock_data (Except.error "provider down") 0 2 = Except.ok (dummyFrame 0 2) ∧
      (dummyFrame 0 2).dates.length = ((2 : Int) - 0 + 1).toNat ∧
      (dummyFrame 0 2).rows.length = ((2 : Int) - 0 + 1).toNat ∧
      ∀ row ∈ (dummyFrame 0 2).rows, row = priceColumns.map fun _ => (none : Option ℚ)) :=
  ⟨by decide, c4_provider_down_placeholder (Except.error "provider down") 0 2 (by decide) trivial⟩

/-- Quarterly placeholder statements have exactly 8 period columns. -/
theorem create_default_quarterly_len (statement_type : String) (now : Int) :
    (create_default_financial_df "quarterly" statement_type now).dates.length = 8 := by
  simp only [create_default_financial_df, if_pos]
  unfold defaultDates
  rw [List.length_map, List.length_range]

/-- Annual placeholder statements have exactly 5 period columns. -/
theorem create_default_annual_len (statement_type : String) (now : Int) :
    (create_default_financial_df "annual" statement_type now).dates.length = 5 := by
  simp only [create_default_financial_df]
  rw [if_neg (by decide)]
  unfold defaultDates
  rw [List.length_map, List.length_range]

/-- Every entry of a placeholder statement is 0. -/
theorem create_default_allZero (period statement_type : String) (now : Int) :
    (create_default_financial_df period statement_type now).allZero := by
  intro row hrow v hv
  simp only [create_default_financial_df] at hrow
  rcases List.mem_map.mp hrow with ⟨c, hc, rfl⟩
  rcases List.mem_map.mp hv with ⟨d, hd, rfl⟩
  rfl

/-- C3: when the provider returns empty statements, the quarterly result
holds exactly 8 periods and the annual result exactly 5 periods in each of
the three statements, every line item of every period being 0. -/
theorem c3_empty_provider_defaults (income_stmt balance_sheet cash_flow : StmtTable)
    (now : Int) (h1 : income_stmt.isEmpty = true) (h2 : balance_sheet.isEmpty = true)
    (h3 : cash_flow.isEmpty = true) :
    (∀ t ∈ statementsList (get_financial_statements income_stmt balance_sheet cash_flow
        "quarterly" now), t.dates.length = 8 ∧ t.allZero) ∧
    (∀ t ∈ statementsList (get_financial_statements income_stmt balance_sheet cash_flow
        "annual" now), t.dates.length = 5 ∧ t.allZero) := by
  constructor
  · intro t ht
    simp [statementsList, get_financial_statements, h1, h2, h3] at ht
    rcases ht with rfl | rfl | rfl
    · exact ⟨create_default_quarterly_len _ _, create_default_allZero _ _ _⟩
    · exact ⟨create_default_quarterly_len _ _, create_default_allZero _ _ _⟩
    · exact ⟨create_default_quarterly_len _ _, create_default_allZero _ _ _⟩
  · intro t ht
    simp [statementsList, get_financial_statements, h1, h2, h3] at ht
    rcases ht with rfl | rfl | rfl
    · exact ⟨create_default_annual_len _ _, create_default_allZero _ _ _⟩
    · exact ⟨create_default_annual_len _ _, create_default_allZero _ _ _⟩
    · exact ⟨create_default_annual_len _ _, create_default_allZero _ _ _⟩

/-- Witness for C3: all three provider statements empty. -/
theorem c3_witness :
    StmtTable.isEmpty ⟨[], [], []⟩ = true ∧
    ((∀ t ∈ statementsList (get_financial_statements ⟨[], [], []⟩ ⟨[], [], []⟩ ⟨[], [], []⟩
        "quarterly" 0), t.dates.length = 8 ∧ t.allZero) ∧
      (∀ t ∈ statementsList (get_financial_statements ⟨[], [], []⟩ ⟨[], [], []⟩ ⟨[], [], []⟩
        "annual" 0), t.dates.length = 5 ∧ t.allZero)) :=
  ⟨rfl, c3_empty_provider_defaults ⟨[], [], []⟩ ⟨[], [], []⟩ ⟨[], [], []⟩ 0 rfl rfl rfl⟩

/-- A ratio column whose denominator line item is absent is entirely NaN
(the caught `KeyError` path), whatever the numerator row. -/
theorem ratioColumn_nan_of_missing_den (tNum : StmtTable) (numKey : String) (tDen : StmtTable)
    (denKey : String) (n : Nat) (h : locRow tDen denKey = none) :
    ratioColumn tNum numKey tDen denKey n = List.replicate n PVal.nan := by
  unfold ratioColumn
  cases hx : locRow tNum numKey <;> rw [h]

/-- C5: when the income statement has no `Total Revenue` line item, all
three margin rows are present and hold 0 for every period (the NaN columns
produced by the caught lookup failures are normalised to 0 by
`fillna(0)`); nothing is omitted. -/
theorem c5_missing_revenue_margins_zero (financials : FinStatements)
    (h : locRow financials.income_statement "Total Revenue" = none) :
    calculate_financial_ratios financials =
      [("Gross Margin",
          List.replicate financials.income_statement.dates.length (PVal.num 0)),
       ("Operating Margin",
          List.replicate financials.income_statement.dates.length (PVal.num 0)),
       ("Net Profit Margin",
          List.replicate financials.income_statement.dates.length (PVal.num 0)),
       ("ROE",
          (ratioColumn financials.income_statement "Net Income" financials.balance_sheet
            "Total Stockholder Equity" financials.income_statement.dates.length).map fillna0)] := by
  simp only [calculate_financial_ratios]
  rw [ratioColumn_nan_of_missing_den _ "Gross Profit" _ _ _ h,
    ratioColumn_nan_of_missing_den _ "Operating Income" _ _ _ h,
    ratioColumn_nan_of_missing_den _ "Net Income" _ _ _ h]
  simp only [List.map_replicate]
  rfl

/-- Witness for C5: a one-period income statement with no line items. -/
theorem c5_witness :
    locRow (⟨[], [7], []⟩ : StmtTable) "Total Revenue" = none ∧
    calculate_financial_ratios ⟨⟨[], [7], []⟩, ⟨[], [], []⟩, ⟨[], [], []⟩⟩ =
      [("Gross Margin", List.replicate 1 (PVal.num 0)),
       ("Operating Margin", List.replicate 1 (PVal.num 0)),
       ("Net Profit Margin", List.replicate 1 (PVal.num 0)),
       ("ROE",
          (ratioColumn ⟨[], [7], []⟩ "Net Income" ⟨[], [], []⟩
            "Total Stockholder Equity" 1).map fillna0)] :=
  ⟨rfl, c5_missing_revenue_margins_zero ⟨⟨[], [7], []⟩, ⟨[], [], []⟩, ⟨[], [], []⟩⟩ rfl⟩

/-- C7: the 2021 market-share mapping sums to 100 percent, the largest
known year is 2023, and a request for the absent year 1999 returns the
same mapping as a request for 2023. -/
theorem c7_market_share :
    ((get_ev_market_share_data 2021).map Prod.snd).sum = 100 ∧
    marketShareMaxYear = 2023 ∧
    get_ev_market_share_data 1999 = get_ev_market_share_data 2023 := by
  decide

/-- Every hardcoded chart column has the length of the cadence's category
axis. -/
theorem chart_series_len (period : String) :
    ∀ p ∈ financialChartData period, p.2.length = (chartDateLabels period).length := by
  intro p hp
  unfold financialChartData chartDateLabels at *
  by_cases h : lowerStr period = "quarterly"
  · rw [if_pos h] at hp ⊢
    fin_cases hp <;> rfl
  · rw [if_neg h] at hp ⊢
    fin_cases hp <;> rfl

/-- C8: for every requested metric list, the grouped-bar construction of
`plot_financial_metrics` is total (never raises) and every produced series,
an absent metric's placeholder series included, has exactly the length of
the category (date) axis. -/
theorem c8_series_length (metrics : List String) (period : String) :
    ∀ s ∈ data_subset metrics period, s.2.length = (chartDateLabels period).length := by
  intro s hs
  unfold data_subset at hs
  rcases List.mem_map.mp hs with ⟨mname, hm, heq⟩
  cases hfind : (financialChartData period).find? fun p => p.1 == mname with
  | some p =>
      rw [hfind] at heq
      cases heq
      exact chart_series_len period p (List.mem_of_find?_eq_some hfind)
  | none =>
      rw [hfind] at heq
      cases heq
      show ((List.range (chartDateLabels period).length).map _).length = _
      rw [List.length_map, List.length_range]

/-- Witness for C8: the metric name `Cybertruck Margin` is absent from the
quarterly table; its placeholder series still matches the axis length. -/
theorem c8_witness :
    (("Cybertruck Margin",
        (List.range (chartDateLabels "Quarterly").length).map
          fun (i : Nat) => 1000 * ((i : Int) + 1)) ∈
      data_subset ["Cybertruck Margin"] "Quarterly") ∧
    ((List.range (chartDateLabels "Quarterly").length).map
        fun (i : Nat) => 1000 * ((i : Int) + 1)).length =
      (chartDateLabels "Quarterly").length :=
  ⟨by decide,
    c8_series_length ["Cybertruck Margin"] "Quarterly"
      ("Cybertruck Margin",
        (List.range (chartDateLabels "Quarterly").length).map
          fun (i : Nat) => 1000 * ((i : Int) + 1))
      (by decide)⟩

/-- Dropping all but one element keeps exactly the final element. -/
theorem drop_length_sub_one (l : List α) : l.drop (l.length - 1) = l.getLast?.toList := by
  induction l with
  | nil => rfl
  | cons x xs ih =>
    cases xs with
    | nil => rfl
    | cons y ys =>
      have h1 : (x :: y :: ys).length - 1 = ys.length + 1 := by simp
      rw [h1, List.drop_succ_cons]
      have h2 : (y :: ys).length - 1 = ys.length := by simp
      rw [h2] at ih
      rw [List.getLast?_cons_cons]
      exact ih

/-- C10: `filter_delivery_data` keeps exactly the final row for
`Last Quarter` (nothing when the table is empty), a suffix of
`min 4 (row count)` rows for `Last Year` (so all rows when there are fewer
than four), and every row for any other time period; the embedding is a
pure function, so the input table is never modified, matching the
`.copy()` in every branch of the source. -/
theorem c10_filter (delivery_data : List α) (time_period : String) :
    filter_delivery_data delivery_data "Last Quarter" = delivery_data.getLast?.toList ∧
    (filter_delivery_data delivery_data "Last Year").length = min 4 delivery_data.length ∧
    List.IsSuffix (filter_delivery_data delivery_data "Last Year") delivery_data ∧
    (time_period ≠ "Last Quarter" → time_period ≠ "Last Year" →
      filter_delivery_data delivery_data time_period = delivery_data) := by
  refine ⟨?_, ?_, ?_, ?_⟩
  · unfold filter_delivery_data
    rw [if_pos rfl]
    exact drop_length_sub_one _
  · unfold filter_delivery_data
    rw [if_neg (by decide), if_pos rfl, List.length_drop]
    omega
  · unfold filter_delivery_data
    rw [if_neg (by decide), if_pos rfl]
    exact List.drop_suffix _ _
  · intro hq hy
    unfold filter_delivery_data
    rw [if_neg hq, if_neg hy]

/-- Witness for C10: a three-row table under each time period. -/
theorem c10_witness :
    ("All Time" ≠ "Last Quarter") ∧ ("All Time" ≠ "Last Year") ∧
    filter_delivery_data [1, 2, 3] "All Time" = ([1, 2, 3] : List Nat) :=
  ⟨by decide, by decide,
    (c10_filter ([1, 2, 3] : List Nat) "All Time").2.2.2 (by decide) (by decide)⟩
